import Mathlib

/-!
Verification development for xprintidle (src/xprintidle.c), a one-shot tool
that queries the X server for the user idle time in milliseconds, applies a
DPMS-related correction workaround on old server releases, and prints the
result.  The C code is shallowly embedded: pure C functions become Lean
functions over explicit state records; X11 library calls are modelled by a
record of the values they would report; machine arithmetic is Nat/Int with
explicit wrap where it matters.
-/

namespace Xprintidle

/-- Conversion of a non-negative mathematical integer to a C `int`
(two's-complement signed 32-bit): reduce mod 2^32 and reinterpret the
high range as negative.  Models the implementation-defined (on all
mainstream compilers: modular) narrowing conversion. -/
def toCInt (n : Nat) : Int :=
  if n % 2 ^ 32 < 2 ^ 31 then ((n % 2 ^ 32 : Nat) : Int)
  else ((n % 2 ^ 32 : Nat) : Int) - 2 ^ 32

/-- The DPMS mode constant DPMSModeOn from X11/extensions/dpms.h. -/
def DPMSModeOn : Nat := 0

/-- The DPMS mode constant DPMSModeStandby from X11/extensions/dpms.h. -/
def DPMSModeStandby : Nat := 1

/-- The DPMS mode constant DPMSModeSuspend from X11/extensions/dpms.h. -/
def DPMSModeSuspend : Nat := 2

/-- The DPMS mode constant DPMSModeOff from X11/extensions/dpms.h. -/
def DPMSModeOff : Nat := 3

/-- Snapshot of everything the DPMS extension reports to
`workaroundCreepyXServer`:
`extPresent` is the success of `DPMSQueryExtension`, `capable` the result of
`DPMSCapable`, `standby`/`suspend`/`off` the three CARD16 timeouts (seconds)
from `DPMSGetTimeouts`, `state` the CARD16 power mode and `onoff` the BOOL
enabled flag from `DPMSInfo`. -/
structure DpmsState where
  extPresent : Bool
  capable : Bool
  standby : Nat
  suspend : Nat
  off : Nat
  state : Nat
  onoff : Bool
deriving DecidableEq, Repr

/-- Embedding of `workaroundCreepyXServer` (src/xprintidle.c:197-234).
The CARD16 timeouts promote to `int`; since each is below 2^16 the products
`standby*1000`, `(suspend+standby)*1000` and `(off+suspend+standby)*1000`
stay below 2^31, so plain Nat arithmetic is the exact machine behaviour
(made precise by the claim C10 theorem below). -/
def workaroundCreepyXServer (d : DpmsState) (idleTime : Nat) : Nat :=
  if d.extPresent = false then idleTime
  else if d.capable = false then idleTime
  else if d.onoff = false then idleTime
  else if d.state = DPMSModeStandby then
    (if idleTime < d.standby * 1000 then idleTime + d.standby * 1000 else idleTime)
  else if d.state = DPMSModeSuspend then
    (if idleTime < (d.suspend + d.standby) * 1000 then
      idleTime + (d.suspend + d.standby) * 1000 else idleTime)
  else if d.state = DPMSModeOff then
    (if idleTime < (d.off + d.suspend + d.standby) * 1000 then
      idleTime + (d.off + d.suspend + d.standby) * 1000 else idleTime)
  else idleTime

/-- The corrector exactly as the specification words it (section 4.2 of the
spec): identity when the DPMS query fails, the server is not capable, DPMS
is disabled, the mode is On or the mode is unrecognized; otherwise a guarded
addition of the cumulative threshold for the mode.  Used only to state the
refinement claim C1. -/
def correct_idle_spec (d : DpmsState) (raw_idle_ms : Nat) : Nat :=
  if d.extPresent = false ∨ d.capable = false ∨ d.onoff = false ∨
      d.state = DPMSModeOn ∨
      (d.state ≠ DPMSModeStandby ∧ d.state ≠ DPMSModeSuspend ∧
        d.state ≠ DPMSModeOff) then
    raw_idle_ms
  else if d.state = DPMSModeStandby then
    (if raw_idle_ms < d.standby * 1000 then raw_idle_ms + d.standby * 1000
     else raw_idle_ms)
  else if d.state = DPMSModeSuspend then
    (if raw_idle_ms < (d.suspend + d.standby) * 1000 then
      raw_idle_ms + (d.suspend + d.standby) * 1000
     else raw_idle_ms)
  else
    (if raw_idle_ms < (d.off + d.suspend + d.standby) * 1000 then
      raw_idle_ms + (d.off + d.suspend + d.standby) * 1000
     else raw_idle_ms)

/-- Resource events of the X11 API calls made by `get_x_idletime` that
acquire or release resources. -/
inductive ResEvent where
  | openDisplay : ResEvent
  | allocInfo : ResEvent
  | freeInfo : ResEvent
  | closeDisplay : ResEvent
deriving DecidableEq, Repr

/-- Everything the X server and the Xlib/Xss libraries report to one run of
`get_x_idletime`: whether `XOpenDisplay` succeeds, whether the screen saver
extension is present, whether `XScreenSaverAllocInfo` and
`XScreenSaverQueryInfo` succeed, the raw `ssi->idle` value (unsigned long
milliseconds), the `VendorRelease` value (C `int`, hence `Int`), and the
DPMS snapshot the workaround would read. -/
structure XServerState where
  displayOk : Bool
  saverExt : Bool
  allocOk : Bool
  queryOk : Bool
  idle : Nat
  vendrel : Int
  dpms : DpmsState
deriving DecidableEq, Repr

/-- Embedding of `get_x_idletime` (src/xprintidle.c:72-118), returning both
its observable result (the stderr diagnostic on error, the computed idle
value on success) and the ordered trace of resource-relevant X11 calls it
performs. -/
def get_x_idletime_full (s : XServerState) :
    Except String Nat × List ResEvent :=
  if s.displayOk = false then
    (Except.error "couldn\x27t open display", [])
  else if s.saverExt = false then
    (Except.error "screen saver extension not supported",
      [ResEvent.openDisplay, ResEvent.closeDisplay])
  else if s.allocOk = false then
    (Except.error "couldn\x27t allocate screen saver info",
      [ResEvent.openDisplay, ResEvent.closeDisplay])
  else if s.queryOk = false then
    (Except.error "couldn\x27t query screen saver info",
      [ResEvent.openDisplay, ResEvent.allocInfo, ResEvent.freeInfo,
        ResEvent.closeDisplay])
  else
    (Except.ok
      (if s.vendrel < 12000000 then workaroundCreepyXServer s.dpms s.idle
       else s.idle),
      [ResEvent.openDisplay, ResEvent.allocInfo, ResEvent.freeInfo,
        ResEvent.closeDisplay])

/-- The observable result of `get_x_idletime`: `Except.error` carries the
one-line stderr diagnostic, `Except.ok` the idle value written through the
out-parameter (error return -1 / success return 0 in C). -/
def get_x_idletime (s : XServerState) : Except String Nat :=
  (get_x_idletime_full s).1

/-- The version string: meson passes `-DXPRINTIDLE_VERSION="0.3.0"` from
the project version in meson.build. -/
def XPRINTIDLE_VERSION : String := "0.3.0"

/-- Embedding of `print_version` (src/xprintidle.c:62-64): the single line
written to stdout. -/
def print_version : String := "xprintidle " ++ XPRINTIDLE_VERSION ++ "\n"

/-- Embedding of `print_usage` (src/xprintidle.c:46-60): the usage text
written to stdout, with the program name substituted for the `%s`. -/
def print_usage (name : String) : String :=
  "usage: " ++ name ++ " [OPTION]\n" ++
  "Query the X server for the user\x27s idle time\n" ++
  "\n" ++
  "Options:\n" ++
  "  -h, --help              Show this text\n" ++
  "  -H, --human-readable    Output the time in a human readable format\n" ++
  "  -v, --version           Print the program version\n" ++
  "\n" ++
  "Report bugs at: https://github.com/g0hl1n/xprintidle/issues\n" ++
  "Written by Magnus Henoch and others; see\n" ++
  "https://github.com/g0hl1n/xprintidle/blob/master/AUTHORS\n"

/-- The loop body of `print_human_time` (src/xprintidle.c:130-144) over the
list of (conversion factor, unit name) pairs, threading the remaining time
and the `firstPrint` flag.  `int unitMag = time / convFacs[i]` narrows the
uint64 quotient to a C `int`, modelled by `toCInt`; `%d` prints that `int`.
Returns the text printed by the loop and the final `firstPrint` flag. -/
def humanAux : List (Nat × String) → Nat → Bool → String × Bool
  | [], _, firstPrint => ("", firstPrint)
  | (fac, name) :: rest, time, firstPrint =>
    let unitMag : Int := toCInt (time / fac)
    let time2 := time % fac
    if unitMag = 0 then humanAux rest time2 firstPrint
    else
      let piece := (if firstPrint then "" else ", ") ++ toString unitMag ++
        " " ++ name ++ (if unitMag = 1 then "" else "s")
      let tail := humanAux rest time2 false
      (piece ++ tail.1, tail.2)

/-- The five (conversion factor, unit name) pairs `convFacs`/`names` of
`print_human_time` (src/xprintidle.c:124-125). -/
def convUnits : List (Nat × String) :=
  [(24 * 60 * 60 * 1000, "day"), (60 * 60 * 1000, "hour"),
    (60 * 1000, "minute"), (1000, "second"), (1, "millisecond")]

/-- Embedding of `print_human_time` (src/xprintidle.c:121-151): the full
text written to stdout for a given uint64 millisecond count. -/
def print_human_time (time : Nat) : String :=
  let r := humanAux convUnits time true
  r.1 ++ (if r.2 then "0 milliseconds" else "") ++ "\n"

/-- Human-readable formatting exactly as the specification words it
(spec section 4.3 / claim C6): decompose into days, hours, minutes,
seconds, milliseconds by truncating integer division with divisors
86400000, 3600000, 60000, 1000, 1 on the successive remainders, keep the
non-zero components, pluralize a unit label exactly when its magnitude is
not 1, join with ", ", and print "0 milliseconds" when every component is
zero.  Used only to state claim C6. -/
def human_time_spec (t : Nat) : String :=
  let comps : List (Nat × String) :=
    [(t / 86400000, "day"), (t % 86400000 / 3600000, "hour"),
      (t % 3600000 / 60000, "minute"), (t % 60000 / 1000, "second"),
      (t % 1000 / 1, "millisecond")]
  let parts := (comps.filter (fun p => p.1 ≠ 0)).map
    (fun p => toString p.1 ++ " " ++ p.2 ++ (if p.1 = 1 then "" else "s"))
  (if parts = [] then "0 milliseconds" else String.intercalate ", " parts)
    ++ "\n"

/-- Outcome of one whole process run: exit status, text written to stdout,
text written to stderr. -/
structure ProcResult where
  exitCode : Nat
  stdout : String
  stderr : String
deriving DecidableEq, Repr

/-- The tail of `main` after argument handling (src/xprintidle.c:171-181):
run `get_x_idletime` against the server state; on failure exit 1 with the
diagnostic already on stderr, on success print the idle value (human
readable iff `human`) and exit 0. -/
def runQuery (s : XServerState) (human : Bool) : ProcResult :=
  match get_x_idletime s with
  | Except.error msg => ⟨1, "", msg ++ "\n"⟩
  | Except.ok idle =>
    if human then ⟨0, print_human_time idle, ""⟩
    else ⟨0, toString idle ++ "\n", ""⟩

/-- Embedding of `main` (src/xprintidle.c:153-182).  `prog` is argv[0],
`args` the remaining arguments (so `argc != 1` iff `args` is non-empty);
only argv[1] is ever inspected.  `-v`/`--version` prints the version and
exits 0; `-H`/`--human-readable` sets the human flag and falls through to
the query; `-h`/`--help` prints usage to stdout and exits 1; any other
first argument falls through to the query with the flag unset. -/
def xmain (prog : String) (args : List String) (s : XServerState) :
    ProcResult :=
  match args with
  | [] => runQuery s false
  | a :: _ =>
    if a = "-v" ∨ a = "--version" then ⟨0, print_version, ""⟩
    else if a = "-H" ∨ a = "--human-readable" then runQuery s true
    else if a = "-h" ∨ a = "--help" then ⟨1, print_usage prog, ""⟩
    else runQuery s false

/-- Proof helper: the text a comma-join contributes for every element after
the first (each prefixed by ", "). -/
def commaTail : List String → String
  | [] => ""
  | p :: ps => ", " ++ p ++ commaTail ps

/-- Proof helper: the non-zero formatted components the loop of
`print_human_time` would print for a unit list, threading the remainder,
assuming no `int` narrowing occurs. -/
def specParts : List (Nat × String) → Nat → List String
  | [], _ => []
  | (fac, name) :: rest, t =>
    (if t / fac = 0 then [] else
      [toString (t / fac) ++ " " ++ name ++ (if t / fac = 1 then "" else "s")])
      ++ specParts rest (t % fac)

/-- Proof helper: every unit magnitude along the loop fits in a signed
32-bit `int`, so the narrowing in `humanAux` is the identity. -/
def boundsOk : List (Nat × String) → Nat → Prop
  | [], _ => True
  | (fac, _) :: rest, t => t / fac < 2 ^ 31 ∧ boundsOk rest (t % fac)

lemma toCInt_of_lt (n : Nat) (h : n < 2 ^ 31) : toCInt n = (n : Int) := by
  unfold toCInt
  split <;> omega

lemma toString_int_ofNat (n : Nat) : toString ((n : Int)) = toString n := rfl

lemma commaTail_append (xs ys : List String) :
    commaTail (xs ++ ys) = commaTail xs ++ commaTail ys := by
  induction xs with
  | nil => simp [commaTail]
  | cons p ps ih => simp [commaTail, ih, String.append_assoc]

lemma intercalate_go_eq (ps : List String) (acc : String) :
    String.intercalate.go acc ", " ps = acc ++ commaTail ps := by
  induction ps generalizing acc with
  | nil => simp [String.intercalate.go, commaTail]
  | cons p ps ih =>
    rw [String.intercalate.go, ih]
    simp [commaTail, String.append_assoc]

lemma intercalate_comma_eq (ps : List String) :
    String.intercalate ", " ps =
      match ps with
      | [] => ""
      | p :: ps2 => p ++ commaTail ps2 := by
  cases ps with
  | nil => rfl
  | cons p ps2 => rw [String.intercalate, intercalate_go_eq]

lemma humanAux_false_eq (units : List (Nat × String)) (t : Nat)
    (hb : boundsOk units t) :
    humanAux units t false = (commaTail (specParts units t), false) := by
  induction units generalizing t with
  | nil => simp [humanAux, specParts, commaTail]
  | cons u rest ih =>
    obtain ⟨fac, name⟩ := u
    obtain ⟨h1, h2⟩ := hb
    simp only [humanAux, specParts, toCInt_of_lt _ h1]
    by_cases hz : t / fac = 0
    · simp [hz, ih _ h2, commaTail]
    · have hzi : ¬(((t / fac : Nat) : Int) = 0) := by exact_mod_cast hz
      rw [if_neg hzi, if_neg hz, ih _ h2, List.singleton_append]
      simp only [commaTail, Nat.cast_eq_one, toString_int_ofNat,
        Bool.false_eq_true, if_false, Prod.mk.injEq, and_true,
        String.append_assoc]

lemma humanAux_true_eq (units : List (Nat × String)) (t : Nat)
    (hb : boundsOk units t) :
    humanAux units t true =
      (String.intercalate ", " (specParts units t),
        decide (specParts units t = [])) := by
  induction units generalizing t with
  | nil => simp [humanAux, specParts, String.intercalate]
  | cons u rest ih =>
    obtain ⟨fac, name⟩ := u
    obtain ⟨h1, h2⟩ := hb
    simp only [humanAux, specParts, toCInt_of_lt _ h1]
    by_cases hz : t / fac = 0
    · simp [hz, ih _ h2]
    · have hzi : ¬(((t / fac : Nat) : Int) = 0) := by exact_mod_cast hz
      rw [if_neg hzi, humanAux_false_eq _ _ h2]
      simp only [hz, if_false, ite_false, List.singleton_append,
        intercalate_comma_eq]
      simp only [Nat.cast_eq_one, toString_int_ofNat, if_true, ite_true,
        Prod.mk.injEq, String.append_assoc, String.empty_append,
        List.cons_ne_nil, decide_False, and_true, eq_self_iff_true]

lemma boundsOk_convUnits (t : Nat) (h : t / 86400000 < 2 ^ 31) :
    boundsOk convUnits t := by
  simp only [convUnits, boundsOk]
  norm_num
  refine ⟨h, by omega, by omega, by omega, by omega⟩

lemma specParts_convUnits (t : Nat) :
    specParts convUnits t =
      (([(t / 86400000, "day"), (t % 86400000 / 3600000, "hour"),
        (t % 3600000 / 60000, "minute"), (t % 60000 / 1000, "second"),
        (t % 1000 / 1, "millisecond")]
          : List (Nat × String)).filter (fun p => p.1 ≠ 0)).map
        (fun p => toString p.1 ++ " " ++ p.2 ++ (if p.1 = 1 then "" else "s")) := by
  simp only [convUnits, specParts]
  norm_num
  by_cases h1 : t / 86400000 = 0 <;>
    by_cases h2 : t % 86400000 / 3600000 = 0 <;>
    by_cases h3 : t % 3600000 / 60000 = 0 <;>
    by_cases h4 : t % 60000 / 1000 = 0 <;>
    by_cases h5 : t % 1000 = 0 <;>
    simp [h1, h2, h3, h4, h5, List.filter]

lemma human_time_main (t : Nat) (h : t / 86400000 < 2 ^ 31) :
    print_human_time t = human_time_spec t := by
  unfold print_human_time human_time_spec
  dsimp only
  rw [humanAux_true_eq _ _ (boundsOk_convUnits t h), specParts_convUnits]
  dsimp only
  simp only [decide_eq_true_eq]
  by_cases hp : (([(t / 86400000, "day"), (t % 86400000 / 3600000, "hour"),
        (t % 3600000 / 60000, "minute"), (t % 60000 / 1000, "second"),
        (t % 1000 / 1, "millisecond")]
          : List (Nat × String)).filter (fun p => p.1 ≠ 0)).map
        (fun p => toString p.1 ++ " " ++ p.2 ++ (if p.1 = 1 then "" else "s")) = []
  · rw [if_pos hp, hp, if_pos rfl]
    simp [String.intercalate]
  · rw [if_neg hp, if_neg hp]
    simp

lemma workaround_ge_raw (d : DpmsState) (raw : Nat) :
    raw ≤ workaroundCreepyXServer d raw := by
  unfold workaroundCreepyXServer
  split_ifs <;> omega

/-- Claim C1: the corrector computes exactly the case analysis the spec
describes: identity when the DPMS query fails, the server is not capable,
DPMS is disabled, the mode is On or unrecognized; in Standby it adds
standby*1000 iff the raw value is below that threshold; in Suspend and Off
likewise with the cumulative thresholds. -/
theorem workaround_matches_spec (d : DpmsState) (raw : Nat) :
    workaroundCreepyXServer d raw = correct_idle_spec d raw := by
  unfold workaroundCreepyXServer correct_idle_spec
  unfold DPMSModeOn DPMSModeStandby DPMSModeSuspend DPMSModeOff
  rcases d with ⟨e, c, st, su, o, m, oo⟩
  dsimp only
  cases e <;> cases c <;> cases oo <;> simp <;> split_ifs <;> omega

/-- Claim C2: with all four query steps succeeding, a vendor release at or
above 12000000 makes the returned idle value the raw server value
unchanged, regardless of DPMS state, while a vendor release below 12000000
routes the raw value through the corrector. -/
theorem get_x_idletime_vendor_threshold (s : XServerState)
    (h1 : s.displayOk = true) (h2 : s.saverExt = true)
    (h3 : s.allocOk = true) (h4 : s.queryOk = true) :
    (12000000 ≤ s.vendrel → get_x_idletime s = Except.ok s.idle) ∧
    (s.vendrel < 12000000 →
      get_x_idletime s = Except.ok (workaroundCreepyXServer s.dpms s.idle)) := by
  constructor
  · intro hv
    simp [get_x_idletime, get_x_idletime_full, h1, h2, h3, h4, not_lt.mpr hv]
  · intro hv
    simp [get_x_idletime, get_x_idletime_full, h1, h2, h3, h4, hv]

/-- Witness for claim C2 at vendor releases exactly 12000000 and 11999999,
with a Standby DPMS state whose correction would add 5000 ms. -/
theorem get_x_idletime_vendor_threshold_witness :
    get_x_idletime
        ⟨true, true, true, true, 42, 12000000, ⟨true, true, 5, 10, 20, 1, true⟩⟩ =
      Except.ok 42 ∧
    get_x_idletime
        ⟨true, true, true, true, 42, 11999999, ⟨true, true, 5, 10, 20, 1, true⟩⟩ =
      Except.ok 5042 := by
  constructor
  · exact (get_x_idletime_vendor_threshold _ rfl rfl rfl rfl).1 (by decide)
  · have h := (get_x_idletime_vendor_threshold
      ⟨true, true, true, true, 42, 11999999, ⟨true, true, 5, 10, 20, 1, true⟩⟩
      rfl rfl rfl rfl).2 (by decide)
    rw [h]
    exact rfl

/-- Counterexample to claim C3: with the argument "-x" (not one of the
recognized flags) the program does not print the usage text and does not
exit 1; it silently proceeds to query the server and prints the idle
value with exit status 0. -/
theorem unknown_arg_falls_through :
    (xmain "xprintidle" ["-x"]
        ⟨true, true, true, true, 123, 12000000,
          ⟨true, true, 5, 10, 20, 3, true⟩⟩).exitCode = 0 ∧
    (xmain "xprintidle" ["-x"]
        ⟨true, true, true, true, 123, 12000000,
          ⟨true, true, 5, 10, 20, 3, true⟩⟩).stdout = "123\n" ∧
    (xmain "xprintidle" ["-x"]
        ⟨true, true, true, true, 123, 12000000,
          ⟨true, true, 5, 10, 20, 3, true⟩⟩).stdout ≠
      print_usage "xprintidle" := by
  refine ⟨rfl, rfl, by decide⟩

/-- Claim C3 as amended: an unrecognized first argument is silently ignored
and the invocation behaves exactly like an invocation with no arguments
(normal idle query); extra trailing arguments after any first argument are
ignored, since only argv[1] is inspected. -/
theorem unrecognized_args_ignored (prog a : String) (rest : List String)
    (s : XServerState)
    (h1 : a ≠ "-v") (h2 : a ≠ "--version") (h3 : a ≠ "-H")
    (h4 : a ≠ "--human-readable") (h5 : a ≠ "-h") (h6 : a ≠ "--help") :
    xmain prog (a :: rest) s = xmain prog [] s ∧
    xmain prog ("-v" :: rest) s = xmain prog ["-v"] s ∧
    xmain prog ("-H" :: rest) s = xmain prog ["-H"] s ∧
    xmain prog ("-h" :: rest) s = xmain prog ["-h"] s := by
  refine ⟨?_, rfl, rfl, rfl⟩
  simp [xmain, h1, h2, h3, h4, h5, h6]

/-- Witness for the amended claim C3 at the concrete argument list
["-x", "junk"]. -/
theorem unrecognized_args_ignored_witness :
    xmain "xprintidle" ["-x", "junk"]
        ⟨true, true, true, true, 7, 0, ⟨false, false, 0, 0, 0, 0, false⟩⟩ =
      xmain "xprintidle" []
        ⟨true, true, true, true, 7, 0, ⟨false, false, 0, 0, 0, 0, false⟩⟩ ∧
    xmain "xprintidle" ["-v", "junk"]
        ⟨true, true, true, true, 7, 0, ⟨false, false, 0, 0, 0, 0, false⟩⟩ =
      xmain "xprintidle" ["-v"]
        ⟨true, true, true, true, 7, 0, ⟨false, false, 0, 0, 0, 0, false⟩⟩ ∧
    xmain "xprintidle" ["-H", "junk"]
        ⟨true, true, true, true, 7, 0, ⟨false, false, 0, 0, 0, 0, false⟩⟩ =
      xmain "xprintidle" ["-H"]
        ⟨true, true, true, true, 7, 0, ⟨false, false, 0, 0, 0, 0, false⟩⟩ ∧
    xmain "xprintidle" ["-h", "junk"]
        ⟨true, true, true, true, 7, 0, ⟨false, false, 0, 0, 0, 0, false⟩⟩ =
      xmain "xprintidle" ["-h"]
        ⟨true, true, true, true, 7, 0, ⟨false, false, 0, 0, 0, 0, false⟩⟩ := by
  exact unrecognized_args_ignored "xprintidle" "-x" ["junk"] _
    (by decide) (by decide) (by decide) (by decide) (by decide) (by decide)

/-- Claim C4: the corrected idle value is never below the raw idle value,
both for the corrector itself on any DPMS snapshot and for the value the
whole query returns at any vendor release. -/
theorem corrector_never_subtracts (d : DpmsState) (raw : Nat)
    (s : XServerState) (v : Nat) (hok : get_x_idletime s = Except.ok v) :
    raw ≤ workaroundCreepyXServer d raw ∧ s.idle ≤ v := by
  refine ⟨workaround_ge_raw d raw, ?_⟩
  have hge := workaround_ge_raw s.dpms s.idle
  unfold get_x_idletime get_x_idletime_full at hok
  split_ifs at hok <;> simp_all

/-- Witness for claim C4 at an Off-state snapshot and a sub-threshold
successful query. -/
theorem corrector_never_subtracts_witness :
    (100 : Nat) ≤ workaroundCreepyXServer ⟨true, true, 5, 10, 20, 3, true⟩ 100 ∧
    (42 : Nat) ≤ 5042 :=
  corrector_never_subtracts ⟨true, true, 5, 10, 20, 3, true⟩ 100
    ⟨true, true, true, true, 42, 11999999, ⟨true, true, 5, 10, 20, 1, true⟩⟩
    5042 rfl

/-- Claim C5: whenever the idle query fails, the diagnostic is one of the
four step-naming single-line messages, and the whole run writes exactly
that line to stderr, writes nothing to stdout, and exits 1 — both without
flags and with the human-readable flag. -/
theorem query_failure_reporting (prog : String) (s : XServerState)
    (msg : String) (h : get_x_idletime s = Except.error msg) :
    (msg = "couldn\x27t open display" ∨
      msg = "screen saver extension not supported" ∨
      msg = "couldn\x27t allocate screen saver info" ∨
      msg = "couldn\x27t query screen saver info") ∧
    (∀ c ∈ msg.data, c ≠ '\n') ∧
    xmain prog [] s = ⟨1, "", msg ++ "\n"⟩ ∧
    xmain prog ["-H"] s = ⟨1, "", msg ++ "\n"⟩ := by
  have hmsg : msg = "couldn\x27t open display" ∨
      msg = "screen saver extension not supported" ∨
      msg = "couldn\x27t allocate screen saver info" ∨
      msg = "couldn\x27t query screen saver info" := by
    unfold get_x_idletime get_x_idletime_full at h
    split_ifs at h <;> simp_all
  refine ⟨hmsg, ?_, ?_, ?_⟩
  · rcases hmsg with h1 | h1 | h1 | h1 <;> subst h1 <;> decide
  · simp [xmain, runQuery, h]
  · simp [xmain, runQuery, h]

/-- Witness for claim C5 at a state whose info query fails. -/
theorem query_failure_reporting_witness :
    ("couldn\x27t query screen saver info" = "couldn\x27t open display" ∨
      "couldn\x27t query screen saver info" =
        "screen saver extension not supported" ∨
      "couldn\x27t query screen saver info" =
        "couldn\x27t allocate screen saver info" ∨
      "couldn\x27t query screen saver info" =
        "couldn\x27t query screen saver info") ∧
    (∀ c ∈ ("couldn\x27t query screen saver info" : String).data, c ≠ '\n') ∧
    xmain "xprintidle" []
        ⟨true, true, true, false, 0, 0, ⟨false, false, 0, 0, 0, 0, false⟩⟩ =
      ⟨1, "", "couldn\x27t query screen saver info" ++ "\n"⟩ ∧
    xmain "xprintidle" ["-H"]
        ⟨true, true, true, false, 0, 0, ⟨false, false, 0, 0, 0, 0, false⟩⟩ =
      ⟨1, "", "couldn\x27t query screen saver info" ++ "\n"⟩ :=
  query_failure_reporting "xprintidle"
    ⟨true, true, true, false, 0, 0, ⟨false, false, 0, 0, 0, 0, false⟩⟩
    "couldn\x27t query screen saver info" rfl

/-- Claim C6 as amended: for every duration whose day magnitude fits in a
signed 32-bit int (time / 86400000 < 2^31) the output is exactly the
decomposition the spec describes — truncating division by 86400000,
3600000, 60000, 1000, 1 on successive remainders, only non-zero components,
comma-separated, pluralized iff the magnitude is not 1, and "0 milliseconds"
when all components are zero; beyond that bound the day magnitude is
narrowed to `int` and the claim fails.  The spec's three examples hold. -/
theorem human_readable_decomposition (t : Nat)
    (h : t / 86400000 < 2 ^ 31) :
    print_human_time t = human_time_spec t ∧
    print_human_time 90061000 = "1 day, 1 hour, 1 minute, 1 second\n" ∧
    print_human_time 0 = "0 milliseconds\n" ∧
    print_human_time 2000 = "2 seconds\n" :=
  ⟨human_time_main t h, by decide, by decide, by decide⟩

/-- Witness for the amended claim C6 at the spec's example input. -/
theorem human_readable_decomposition_witness :
    (90061000 : Nat) / 86400000 < 2 ^ 31 ∧
    (print_human_time 90061000 = human_time_spec 90061000 ∧
      print_human_time 90061000 = "1 day, 1 hour, 1 minute, 1 second\n" ∧
      print_human_time 0 = "0 milliseconds\n" ∧
      print_human_time 2000 = "2 seconds\n") :=
  ⟨by decide, human_readable_decomposition 90061000 (by decide)⟩

/-- Counterexample to claim C6 as stated: at 86400000 * 2^32 milliseconds
(within uint64 range, mathematically 2^32 days) the day magnitude narrows
to `int` 0, so the program prints "0 milliseconds" instead of the
mathematical decomposition "4294967296 days". -/
theorem human_time_int_narrowing_mismatch :
    print_human_time (86400000 * 2 ^ 32) = "0 milliseconds\n" ∧
    human_time_spec (86400000 * 2 ^ 32) = "4294967296 days\n" ∧
    print_human_time (86400000 * 2 ^ 32) ≠
      human_time_spec (86400000 * 2 ^ 32) := by
  refine ⟨by decide, by decide, by decide⟩

/-- Claim C7: with first argument -v or --version the program writes the
single-line version string to stdout, writes nothing to stderr, exits 0,
and its behaviour is independent of the display-server state (no
connection is attempted). -/
theorem version_flag_no_connection (prog a : String) (rest : List String)
    (s s2 : XServerState) (h : a = "-v" ∨ a = "--version") :
    xmain prog (a :: rest) s = ⟨0, print_version, ""⟩ ∧
    xmain prog (a :: rest) s = xmain prog (a :: rest) s2 ∧
    print_version.data.count '\n' = 1 ∧
    print_version.data.getLast? = some '\n' := by
  have hx : ∀ s3 : XServerState, xmain prog (a :: rest) s3 = ⟨0, print_version, ""⟩ := by
    intro s3
    rcases h with h | h <;> subst h <;> simp [xmain]
  exact ⟨hx s, (hx s).trans (hx s2).symm, by decide, by decide⟩

/-- Witness for claim C7 with --version, trailing junk, and an unreachable
display server. -/
theorem version_flag_no_connection_witness :
    xmain "xprintidle" ["--version", "junk"]
        ⟨false, false, false, false, 0, 0, ⟨false, false, 0, 0, 0, 0, false⟩⟩ =
      ⟨0, print_version, ""⟩ ∧
    xmain "xprintidle" ["--version", "junk"]
        ⟨false, false, false, false, 0, 0, ⟨false, false, 0, 0, 0, 0, false⟩⟩ =
      xmain "xprintidle" ["--version", "junk"]
        ⟨true, true, true, true, 9, 99, ⟨true, true, 1, 2, 3, 1, true⟩⟩ ∧
    print_version.data.count '\n' = 1 ∧
    print_version.data.getLast? = some '\n' :=
  version_flag_no_connection "xprintidle" "--version" ["junk"]
    ⟨false, false, false, false, 0, 0, ⟨false, false, 0, 0, 0, 0, false⟩⟩
    ⟨true, true, true, true, 9, 99, ⟨true, true, 1, 2, 3, 1, true⟩⟩
    (Or.inr rfl)

/-- Claim C8: whenever the display connection is successfully opened, the
call trace of the query starts with the open, contains exactly one close,
and ends with that close — on the success path and on every failure
path. -/
theorem connection_always_released (s : XServerState)
    (h : s.displayOk = true) :
    (get_x_idletime_full s).2.head? = some ResEvent.openDisplay ∧
    (get_x_idletime_full s).2.count ResEvent.closeDisplay = 1 ∧
    (get_x_idletime_full s).2.getLast? = some ResEvent.closeDisplay := by
  unfold get_x_idletime_full
  rw [if_neg (by simp [h])]
  split_ifs <;> exact ⟨rfl, rfl, rfl⟩

/-- Witness for claim C8 on a run whose info query fails after the
connection was opened. -/
theorem connection_always_released_witness :
    (get_x_idletime_full
        ⟨true, true, true, false, 0, 0, ⟨false, false, 0, 0, 0, 0, false⟩⟩).2.head? =
      some ResEvent.openDisplay ∧
    (get_x_idletime_full
        ⟨true, true, true, false, 0, 0, ⟨false, false, 0, 0, 0, 0, false⟩⟩).2.count
        ResEvent.closeDisplay = 1 ∧
    (get_x_idletime_full
        ⟨true, true, true, false, 0, 0, ⟨false, false, 0, 0, 0, 0, false⟩⟩).2.getLast? =
      some ResEvent.closeDisplay :=
  connection_always_released
    ⟨true, true, true, false, 0, 0, ⟨false, false, 0, 0, 0, 0, false⟩⟩ rfl

/-- Claim C9: with the DPMS snapshot fixed, the corrector is idempotent:
after one application the result is at least the cumulative threshold for
the current mode, so the guard prevents a second addition. -/
theorem workaround_idempotent (d : DpmsState) (raw : Nat) :
    workaroundCreepyXServer d (workaroundCreepyXServer d raw) =
      workaroundCreepyXServer d raw := by
  unfold workaroundCreepyXServer
  split_ifs <;> omega

/-- Claim C10: for CARD16 timeouts the three thresholds survive the C
`int` computation without overflow (the narrowing `toCInt` is the identity
on each), the largest possible threshold is 196605000, and the corrector
raises the raw value by at most 196605000 milliseconds. -/
theorem int32_thresholds_exact (d : DpmsState) (raw : Nat)
    (h1 : d.standby < 2 ^ 16) (h2 : d.suspend < 2 ^ 16)
    (h3 : d.off < 2 ^ 16) :
    toCInt (d.standby * 1000) = ((d.standby * 1000 : Nat) : Int) ∧
    toCInt ((d.suspend + d.standby) * 1000) =
      (((d.suspend + d.standby) * 1000 : Nat) : Int) ∧
    toCInt ((d.off + d.suspend + d.standby) * 1000) =
      (((d.off + d.suspend + d.standby) * 1000 : Nat) : Int) ∧
    (d.off + d.suspend + d.standby) * 1000 ≤ 196605000 ∧
    workaroundCreepyXServer d raw ≤ raw + 196605000 := by
  refine ⟨toCInt_of_lt _ (by omega), toCInt_of_lt _ (by omega),
    toCInt_of_lt _ (by omega), by omega, ?_⟩
  unfold workaroundCreepyXServer
  split_ifs <;> omega

/-- Witness for claim C10 at the maximal CARD16 timeouts. -/
theorem int32_thresholds_exact_witness :
    toCInt (65535 * 1000) = ((65535 * 1000 : Nat) : Int) ∧
    toCInt ((65535 + 65535) * 1000) = (((65535 + 65535) * 1000 : Nat) : Int) ∧
    toCInt ((65535 + 65535 + 65535) * 1000) =
      (((65535 + 65535 + 65535) * 1000 : Nat) : Int) ∧
    (65535 + 65535 + 65535) * 1000 ≤ 196605000 ∧
    workaroundCreepyXServer ⟨true, true, 65535, 65535, 65535, 3, true⟩ 0 ≤
      0 + 196605000 :=
  int32_thresholds_exact ⟨true, true, 65535, 65535, 65535, 3, true⟩ 0
    (by decide) (by decide) (by decide)

end Xprintidle
